import Mathlib

/-!
Verification development for the futures-net readiness reactor.

The definitions below shallowly embed the Rust sources:
* `src/driver/sys/event.rs` — `Ready`, `PollOpt`, `EventedFd`;
* `src/driver/sys/linux/ready.rs` — `UnixReady` and `READY_ALL`;
* `src/driver/sys/linux/awakener.rs` — `Awakener::wakeup` / `cleanup`;
* `src/tcp/listener.rs` and `src/uds/listener.rs` — `poll_accept_std`.

Machine integers (`usize`) are modelled as `Nat`; the only operation where
the 64-bit width matters is bitwise complement, modelled as XOR against the
all-ones 64-bit mask.
-/

/-- Width of `usize` on the target platform (64-bit Linux). -/
def usizeBits : Nat := 64

/-- Bitwise complement of a `usize` value: XOR against the all-ones mask. -/
def usizeNot (x : Nat) : Nat := (2 ^ usizeBits - 1) ^^^ x

/-- Error kinds of `std::io::ErrorKind`, with `WouldBlock` distinguished,
all other kinds collapsed into a tagged constructor. -/
inductive ErrorKind : Type where
  | wouldBlock : ErrorKind
  | otherKind : Nat → ErrorKind
deriving DecidableEq, Repr

/-- A `std::io::Error`: an `ErrorKind` plus an opaque payload distinguishing
distinct errors of the same kind. -/
structure IOError : Type where
  kind : ErrorKind
  payload : Nat
deriving DecidableEq, Repr

/-- `std::task::Poll<α>`: either a finished value or `Pending`. -/
inductive PollR (α : Type) : Type where
  | ready : α → PollR α
  | pending : PollR α
deriving DecidableEq, Repr

/-- `Token` from `src/driver/sys/token.rs`: an opaque numeric handle. -/
structure Token : Type where
  val : Nat
deriving DecidableEq, Repr

/-- `Ready` from `src/driver/sys/event.rs`: a `usize` bitmask of readiness
kinds. -/
structure Ready : Type where
  bits : Nat
deriving DecidableEq, Repr

/-- `const READABLE: usize = 0b00001` in `event.rs`. -/
def READABLE : Nat := 0b00001

/-- `const WRITABLE: usize = 0b00010` in `event.rs`. -/
def WRITABLE : Nat := 0b00010

/-- `const ERROR: usize = 0b00_0100` in `linux/ready.rs`. -/
def UNIX_ERROR : Nat := 0b000100

/-- `const HUP: usize = 0b00_1000` in `linux/ready.rs`. -/
def UNIX_HUP : Nat := 0b001000

/-- `const LIO: usize = 0b00_0000` in `linux/ready.rs`. -/
def UNIX_LIO : Nat := 0b000000

/-- `const PRI: usize = 0b100_0000` in `linux/ready.rs`. -/
def UNIX_PRI : Nat := 0b1000000

/-- `pub const READY_ALL: usize = ERROR | HUP | LIO | PRI` in
`linux/ready.rs`. -/
def READY_ALL : Nat := UNIX_ERROR ||| UNIX_HUP ||| UNIX_LIO ||| UNIX_PRI

/-- `Ready::empty()`. -/
def Ready.empty : Ready := ⟨0⟩

/-- `Ready::readable()`. -/
def Ready.readable : Ready := ⟨READABLE⟩

/-- `Ready::writable()`. -/
def Ready.writable : Ready := ⟨WRITABLE⟩

/-- `Ready::all()`: `Ready(READABLE | WRITABLE | linux::READY_ALL)`. -/
def Ready.all : Ready := ⟨READABLE ||| WRITABLE ||| READY_ALL⟩

/-- `impl BitOr for Ready`: `Ready(self.0 | other.0)`. -/
def Ready.bor (a b : Ready) : Ready := ⟨a.bits ||| b.bits⟩

/-- `impl BitAnd for Ready`: `Ready(self.0 & other.0)`. -/
def Ready.band (a b : Ready) : Ready := ⟨a.bits &&& b.bits⟩

/-- `impl BitXor for Ready`: `Ready(self.0 ^ other.0)`. -/
def Ready.bxor (a b : Ready) : Ready := ⟨a.bits ^^^ b.bits⟩

/-- `impl Sub for Ready`: `Ready(self.0 & !other.0)`, with `!` the 64-bit
complement. -/
def Ready.sub (a b : Ready) : Ready := ⟨a.bits &&& usizeNot b.bits⟩

/-- `Ready::contains`: `(*self & other) == other`. -/
def Ready.contains (a b : Ready) : Bool := Ready.band a b = b

/-- `Ready::is_empty`: `*self == Ready::empty()`. -/
def Ready.isEmpty (a : Ready) : Bool := a = Ready.empty

/-- `Ready::is_readable`: `self.contains(Ready::readable())`. -/
def Ready.isReadable (a : Ready) : Bool := a.contains Ready.readable

/-- `Ready::is_writable`: `self.contains(Ready::writable())`. -/
def Ready.isWritable (a : Ready) : Bool := a.contains Ready.writable

/-- `UnixReady` from `linux/ready.rs`: a newtype wrapper around `Ready`. -/
structure UnixReady : Type where
  toReady : Ready
deriving DecidableEq, Repr

/-- `UnixReady::error()`: `UnixReady(ready_from_usize(ERROR))`. -/
def UnixReady.error : UnixReady := ⟨⟨UNIX_ERROR⟩⟩

/-- `UnixReady::hup()`: `UnixReady(ready_from_usize(HUP))`. -/
def UnixReady.hup : UnixReady := ⟨⟨UNIX_HUP⟩⟩

/-- `UnixReady::priority()`: `UnixReady(ready_from_usize(PRI))`. -/
def UnixReady.priority : UnixReady := ⟨⟨UNIX_PRI⟩⟩

/-- `impl From<Ready> for UnixReady`: `UnixReady(src)`. -/
def UnixReady.fromReady (src : Ready) : UnixReady := ⟨src⟩

/-- `impl From<UnixReady> for Ready`: `src.0`. -/
def Ready.fromUnix (src : UnixReady) : Ready := src.toReady

/-- `PollOpt` from `event.rs`: a `usize` bitmask of registration options. -/
structure PollOpt : Type where
  bits : Nat
deriving DecidableEq, Repr

/-- `PollOpt::empty()`. -/
def PollOpt.empty : PollOpt := ⟨0⟩

/-- `PollOpt::edge()`: `PollOpt(0b0001)`. -/
def PollOpt.edge : PollOpt := ⟨0b0001⟩

/-- `PollOpt::level()`: `PollOpt(0b0010)`. -/
def PollOpt.level : PollOpt := ⟨0b0010⟩

/-- `PollOpt::oneshot()`: `PollOpt(0b0100)`. -/
def PollOpt.oneshot : PollOpt := ⟨0b0100⟩

/-- `impl BitOr for PollOpt`: `PollOpt(self.0 | other.0)`. -/
def PollOpt.bor (a b : PollOpt) : PollOpt := ⟨a.bits ||| b.bits⟩

/-- `impl BitAnd for PollOpt`: `PollOpt(self.0 & other.0)`. -/
def PollOpt.band (a b : PollOpt) : PollOpt := ⟨a.bits &&& b.bits⟩

/-- `PollOpt::contains`: `(*self & other) == other`. -/
def PollOpt.contains (a b : PollOpt) : Bool := PollOpt.band a b = b

/-- `PollOpt::is_edge`: `self.contains(PollOpt::edge())`. -/
def PollOpt.isEdge (o : PollOpt) : Bool := o.contains PollOpt.edge

/-- `PollOpt::is_level`: `self.contains(PollOpt::level())`. -/
def PollOpt.isLevel (o : PollOpt) : Bool := o.contains PollOpt.level

/-- `PollOpt::is_oneshot`: `self.contains(PollOpt::oneshot())`. -/
def PollOpt.isOneshot (o : PollOpt) : Bool := o.contains PollOpt.oneshot

/-! ## Awakener (`src/driver/sys/linux/awakener.rs`) -/

/-- The buffer passed by `Awakener::wakeup` to `write`: the single byte `[1]`. -/
def wakeupBuf : List Nat := [1]

/-- `Awakener::wakeup`, parameterised over the outcome of the pipe write
(`Ok` carries the byte count written, `Err` an `IOError`): `Ok(_) => Ok(())`;
a `WouldBlock` error also becomes `Ok(())`; any other error is returned. -/
def Awakener.wakeup (w : Except IOError Nat) : Except IOError Unit :=
  match w with
  | .ok _ => .ok ()
  | .error e => if e.kind = ErrorKind.wouldBlock then .ok () else .error e

/-- One `read` into the 128-byte buffer of `Awakener::cleanup`, against a pipe
holding `n` buffered bytes: the strategy `f` names how many bytes this read
returns, physically capped by both the buffer size and the bytes available. -/
def pipeRead (f : Nat → Nat) (n : Nat) : Nat := min (f n) (min 128 n)

/-- `Awakener::cleanup`: loop reading into a 128-byte buffer until a read
returns `Ok(0)` or an error (both modelled as `pipeRead` returning 0);
the result is the number of bytes left buffered in the pipe on return. -/
def Awakener.cleanup (f : Nat → Nat) (n : Nat) : Nat :=
  if _h : 0 < pipeRead f n then
    Awakener.cleanup f (n - pipeRead f n)
  else
    n
termination_by n
decreasing_by
  have h1 : pipeRead f n ≤ n := le_trans (min_le_right _ _) (min_le_right 128 n)
  omega

/-! ## Listener accept paths (`src/tcp/listener.rs`, `src/uds/listener.rs`)

`poll_accept_std` lives in the repository, but the `PollEvented` adapter it
calls does not (the `driver::PollEvented` module is absent from the source
tree); its two calls are modelled from the spec. The read-readiness cache of
the adapter is the `Bool` threaded through each function. -/

/-- Modelled from the spec (the `PollEvented` module is missing from the
source tree): `clear_read_ready(cx)` clears the cached read-readiness bit and
re-registers the wake handle, returning `Ok(())`. -/
def clearReadReady (_cache : Bool) : Except IOError Unit × Bool :=
  (.ok (), false)

/-- `TcpListener::poll_accept_std`, parameterised over the outcome of
`poll_read_ready` (a `Poll<io::Result<Ready>>`) and of
`TcpListener::accept_std` (the accepted pair is abstract, type `π`).
Returns the poll result together with the updated read-readiness cache. -/
def TcpListener.pollAcceptStd {π : Type} (r : PollR (Except IOError Ready))
    (accept : Except IOError π) (cache : Bool) :
    PollR (Except IOError π) × Bool :=
  match r with
  | .pending => (.pending, cache)
  | .ready (.error e) => (.ready (.error e), cache)
  | .ready (.ok _) =>
    match accept with
    | .ok pair => (.ready (.ok pair), cache)
    | .error e =>
      if e.kind = ErrorKind.wouldBlock then
        (PollR.pending, (clearReadReady cache).2)
      else
        (.ready (.error e), cache)

/-- `UnixListener::poll_accept_std`: identical shape, except that the
underlying `accept_std` returns `io::Result<Option<(sock, addr)>>` and the
`Ok(None)` case also clears readiness and returns `Pending`. -/
def UnixListener.pollAcceptStd {π : Type} (r : PollR (Except IOError Ready))
    (accept : Except IOError (Option π)) (cache : Bool) :
    PollR (Except IOError π) × Bool :=
  match r with
  | .pending => (.pending, cache)
  | .ready (.error e) => (.ready (.error e), cache)
  | .ready (.ok _) =>
    match accept with
    | .ok (some pair) => (.ready (.ok pair), cache)
    | .ok none => (PollR.pending, (clearReadReady cache).2)
    | .error e =>
      if e.kind = ErrorKind.wouldBlock then
        (PollR.pending, (clearReadReady cache).2)
      else
        (.ready (.error e), cache)

/-! ## ReadinessNode lifetime (spec-modelled)

The `poll.rs` module holding `Registration`, `SetReadiness` and
`ReadinessNode` is declared (`mod poll;`) but absent from the source tree. -/

/-- Modelled from the spec (missing `poll.rs`): the ownership state of one
`ReadinessNode` — whether the `Registration` is still alive, and how many
`SetReadiness` clones are still held. -/
structure NodeState : Type where
  registrationAlive : Bool
  setReadinessCount : Nat
deriving DecidableEq, Repr

/-- Modelled from the spec: the node is destroyed exactly when the
`Registration` and every `SetReadiness` clone have been dropped. -/
def NodeState.destroyed (s : NodeState) : Bool :=
  !s.registrationAlive && s.setReadinessCount = 0

/-- Modelled from the spec: dropping the `Registration` deregisters interest
but only releases the registration's share of the node. -/
def NodeState.dropRegistration (s : NodeState) : NodeState :=
  { s with registrationAlive := false }

/-- Modelled from the spec: dropping one `SetReadiness` clone releases that
clone's share of the node. -/
def NodeState.dropSetReadiness (s : NodeState) : NodeState :=
  { s with setReadinessCount := s.setReadinessCount - 1 }

/-- Modelled from the spec: cloning a `SetReadiness` adds one share. -/
def NodeState.cloneSetReadiness (s : NodeState) : NodeState :=
  { s with setReadinessCount := s.setReadinessCount + 1 }

/-! ## EventedFd (`src/driver/sys/event.rs`, lines 338-364)

The selector calls an `EventedFd` method makes are recorded as a trace. -/

/-- One call made against the `Poll`'s selector, or a close of a raw
descriptor. -/
inductive SelectorCall : Type where
  | registerCall : Int → Token → Ready → PollOpt → SelectorCall
  | reregisterCall : Int → Token → Ready → PollOpt → SelectorCall
  | deregisterCall : Int → SelectorCall
  | closeCall : Int → SelectorCall
deriving DecidableEq, Repr

/-- Whether a selector-level call closes a descriptor. -/
def SelectorCall.isClose : SelectorCall → Bool
  | .closeCall _ => true
  | _ => false

/-- `EventedFd<'a>(pub &'a RawFd)`: a borrowed raw descriptor. -/
structure EventedFd : Type where
  fd : Int
deriving DecidableEq, Repr

/-- `EventedFd::register`: `poll::selector(poll).register(*self.0, token,
interest, opts)` — the trace of selector calls it makes. -/
def EventedFd.register (e : EventedFd) (token : Token) (interest : Ready)
    (opts : PollOpt) : List SelectorCall :=
  [SelectorCall.registerCall e.fd token interest opts]

/-- `EventedFd::reregister`: forwards to the selector unchanged. -/
def EventedFd.reregister (e : EventedFd) (token : Token) (interest : Ready)
    (opts : PollOpt) : List SelectorCall :=
  [SelectorCall.reregisterCall e.fd token interest opts]

/-- `EventedFd::deregister`: `poll::selector(poll).deregister(*self.0)`. -/
def EventedFd.deregister (e : EventedFd) : List SelectorCall :=
  [SelectorCall.deregisterCall e.fd]

/-- Dropping an `EventedFd`: the struct has no `Drop` impl and holds only a
borrowed `&RawFd`, so dropping it makes no selector or descriptor call. -/
def EventedFd.dropTrace (_e : EventedFd) : List SelectorCall := []

/-! ## Helper lemmas -/

/-- Absorption: OR-ing in extra bits keeps the original bits under AND. -/
theorem lor_land_absorb_left (x y : Nat) : (x ||| y) &&& x = x := by
  apply Nat.eq_of_testBit_eq
  intro i
  simp only [Nat.testBit_land, Nat.testBit_lor]
  cases x.testBit i <;> simp

/-- Absorption on the right operand of the OR. -/
theorem lor_land_absorb_right (x y : Nat) : (x ||| y) &&& y = y := by
  apply Nat.eq_of_testBit_eq
  intro i
  simp only [Nat.testBit_land, Nat.testBit_lor]
  cases y.testBit i <;> simp

/-- A `usize` value AND-ed with its own 64-bit complement is zero. -/
theorem land_usizeNot_self (x : Nat) (hx : x < 2 ^ usizeBits) :
    x &&& usizeNot x = 0 := by
  apply Nat.eq_of_testBit_eq
  intro i
  simp only [Nat.testBit_land, usizeNot, Nat.testBit_xor, Nat.zero_testBit,
    Nat.testBit_two_pow_sub_one]
  rcases Nat.lt_or_ge i usizeBits with h | h
  · cases hb : x.testBit i <;> simp [hb, h]
  · have hxi : x.testBit i = false :=
      Nat.testBit_eq_false_of_lt
        (lt_of_lt_of_le hx (Nat.pow_le_pow_right (by norm_num) h))
    simp [hxi]

/-! ## Claim theorems -/

/-- C5: for all `Ready` values `a` and `b`, `a.contains(b)` holds if and
only if `(a & b) == b`. -/
theorem ready_contains_iff_band_eq (a b : Ready) :
    a.contains b = true ↔ a.band b = b := by
  simp [Ready.contains]

/-- C6: `Ready::from(UnixReady::from(r)) == r` and
`UnixReady::from(Ready::from(u)) == u`; both conversions preserve the
underlying bitmask exactly. -/
theorem ready_unixready_roundtrip (r : Ready) (u : UnixReady) :
    Ready.fromUnix (UnixReady.fromReady r) = r ∧
    UnixReady.fromReady (Ready.fromUnix u) = u ∧
    (UnixReady.fromReady r).toReady.bits = r.bits ∧
    (Ready.fromUnix u).bits = u.toReady.bits :=
  ⟨rfl, rfl, rfl, rfl⟩

/-- C7: `PollOpt::edge() | PollOpt::oneshot()` satisfies `is_edge()` and
`is_oneshot()` and does not satisfy `is_level()`. -/
theorem pollopt_edge_oneshot_flags :
    (PollOpt.edge.bor PollOpt.oneshot).isEdge = true ∧
    (PollOpt.edge.bor PollOpt.oneshot).isOneshot = true ∧
    (PollOpt.edge.bor PollOpt.oneshot).isLevel = false := by
  decide

/-- C8: for all `Ready` values `a`, `b`: `(a | b).contains(a)`,
`(a | b).contains(b)`, `a.contains(a)` hold, and `(a - a).is_empty()` holds
(the last for any in-range `usize` bitmask). -/
theorem ready_algebra_laws (a b : Ready) :
    (a.bor b).contains a = true ∧
    (a.bor b).contains b = true ∧
    a.contains a = true ∧
    (a.bits < 2 ^ usizeBits → (a.sub a).isEmpty = true) := by
  refine ⟨?_, ?_, ?_, ?_⟩
  · simp [Ready.contains, Ready.band, Ready.bor, Ready.mk.injEq,
      lor_land_absorb_left]
  · simp [Ready.contains, Ready.band, Ready.bor, Ready.mk.injEq,
      lor_land_absorb_right]
  · simp [Ready.contains, Ready.band, Ready.mk.injEq, Nat.and_self]
  · intro hx
    simp [Ready.isEmpty, Ready.sub, Ready.empty, Ready.mk.injEq,
      land_usizeNot_self a.bits hx]

/-- Witness for C8 at `a = readable`, `b = writable`. -/
theorem ready_algebra_laws_witness :
    Ready.readable.bits < 2 ^ usizeBits ∧
    (Ready.readable.sub Ready.readable).isEmpty = true :=
  ⟨by decide, (ready_algebra_laws Ready.readable Ready.writable).2.2.2 (by decide)⟩

/-- C10: `Ready::all()` equals the union of readable, writable, error, hup
and priority, and the `LIO` constant contributes no bit because it is zero. -/
theorem ready_all_eq_union :
    Ready.all =
      ((((Ready.readable.bor Ready.writable).bor
        (Ready.fromUnix UnixReady.error)).bor
        (Ready.fromUnix UnixReady.hup)).bor
        (Ready.fromUnix UnixReady.priority)) ∧
    UNIX_LIO = 0 := by
  decide

/-- C2: `Awakener::wakeup` writes the single byte `[1]`; a successful write
or a `WouldBlock` error yields `Ok(())`, and any other error is returned. -/
theorem awakener_wakeup_spec (w : Except IOError Nat) :
    wakeupBuf.length = 1 ∧
    (∀ n, w = Except.ok n → Awakener.wakeup w = Except.ok ()) ∧
    (∀ e, w = Except.error e → e.kind = ErrorKind.wouldBlock →
      Awakener.wakeup w = Except.ok ()) ∧
    (∀ e, w = Except.error e → e.kind ≠ ErrorKind.wouldBlock →
      Awakener.wakeup w = Except.error e) := by
  refine ⟨rfl, ?_, ?_, ?_⟩
  · rintro n rfl
    rfl
  · rintro e rfl hk
    simp [Awakener.wakeup, hk]
  · rintro e rfl hk
    simp [Awakener.wakeup, hk]

/-- Witness for C2: a non-would-block write error is returned unchanged. -/
theorem awakener_wakeup_spec_witness :
    Awakener.wakeup (Except.error ⟨ErrorKind.otherKind 3, 5⟩) =
      Except.error ⟨ErrorKind.otherKind 3, 5⟩ :=
  (awakener_wakeup_spec _).2.2.2 _ rfl (by decide)

/-- C4: dropping the `Registration` while `SetReadiness` clones remain does
not destroy the shared `ReadinessNode`; the node is destroyed exactly when
both sides have been dropped. -/
theorem readiness_node_lifetime (s : NodeState) :
    (0 < s.setReadinessCount → (s.dropRegistration).destroyed = false) ∧
    (s.destroyed = true ↔
      (s.registrationAlive = false ∧ s.setReadinessCount = 0)) := by
  obtain ⟨ra, c⟩ := s
  constructor
  · intro hc
    simp only [NodeState.dropRegistration, NodeState.destroyed,
      Bool.not_true, Bool.false_and]
    simp only [NodeState.setReadinessCount] at hc
    simp
    omega
  · cases ra <;> simp [NodeState.destroyed]

/-- Witness for C4 at a node whose registration is dropped while one
`SetReadiness` clone is still held. -/
theorem readiness_node_lifetime_witness :
    (NodeState.mk true 1).dropRegistration.destroyed = false :=
  (readiness_node_lifetime ⟨true, 1⟩).1 (by decide)

/-- C9: every `EventedFd` operation forwards to the selector with the
descriptor, token, interest and options unchanged; no operation — dropping
the adapter included — closes the descriptor. -/
theorem eventedfd_forwards (e : EventedFd) (t : Token) (i : Ready)
    (o : PollOpt) :
    EventedFd.register e t i o = [SelectorCall.registerCall e.fd t i o] ∧
    EventedFd.reregister e t i o = [SelectorCall.reregisterCall e.fd t i o] ∧
    EventedFd.deregister e = [SelectorCall.deregisterCall e.fd] ∧
    EventedFd.dropTrace e = [] ∧
    ((EventedFd.register e t i o ++ EventedFd.reregister e t i o ++
      EventedFd.deregister e ++ EventedFd.dropTrace e).all
        fun c => !c.isClose) = true :=
  ⟨rfl, rfl, rfl, rfl, rfl⟩

/-- C3: on a non-blocking pipe whose reads return at least one byte while
any remain, `Awakener::cleanup` terminates with no buffered bytes left. -/
theorem awakener_cleanup_drains (f : Nat → Nat)
    (hf : ∀ m, 0 < m → 0 < f m) (n : Nat) :
    Awakener.cleanup f n = 0 := by
  induction n using Nat.strong_induction_on with
  | _ n ih =>
    rw [Awakener.cleanup]
    split
    · next h =>
      apply ih
      have h1 : pipeRead f n ≤ n :=
        le_trans (min_le_right _ _) (min_le_right 128 n)
      omega
    · next h =>
      by_contra hn
      have hpos : 0 < n := Nat.pos_of_ne_zero hn
      exact h (lt_min_iff.mpr ⟨hf n hpos, lt_min_iff.mpr ⟨by norm_num, hpos⟩⟩)

/-- Witness for C3: a pipe holding 300 bytes, each read taking up to 128,
is fully drained. -/
theorem awakener_cleanup_drains_witness :
    Awakener.cleanup (fun m => min m 128) 300 = 0 :=
  awakener_cleanup_drains _
    (fun m hm => lt_min_iff.mpr ⟨hm, by norm_num⟩) 300

/-- C1: when the read-readiness check reports ready, both listeners'
`poll_accept_std` return `Ready(Ok(pair))` on a successful accept, clear
the readiness cache and return `Pending` on a `WouldBlock` error (or
`Ok(None)` for Unix), and return every other error unchanged. -/
theorem listener_poll_accept_spec (π : Type) (v : Ready) (cache : Bool) :
    (∀ p : π,
      TcpListener.pollAcceptStd (PollR.ready (Except.ok v))
        (Except.ok p) cache = (PollR.ready (Except.ok p), cache)) ∧
    (∀ e : IOError, e.kind = ErrorKind.wouldBlock →
      TcpListener.pollAcceptStd (PollR.ready (Except.ok v))
        (Except.error e : Except IOError π) cache = (PollR.pending, false)) ∧
    (∀ e : IOError, e.kind ≠ ErrorKind.wouldBlock →
      TcpListener.pollAcceptStd (PollR.ready (Except.ok v))
        (Except.error e : Except IOError π) cache
        = (PollR.ready (Except.error e), cache)) ∧
    (∀ p : π,
      UnixListener.pollAcceptStd (PollR.ready (Except.ok v))
        (Except.ok (some p)) cache = (PollR.ready (Except.ok p), cache)) ∧
    (UnixListener.pollAcceptStd (PollR.ready (Except.ok v))
        (Except.ok (none : Option π)) cache = (PollR.pending, false)) ∧
    (∀ e : IOError, e.kind = ErrorKind.wouldBlock →
      UnixListener.pollAcceptStd (PollR.ready (Except.ok v))
        (Except.error e : Except IOError (Option π)) cache
        = (PollR.pending, false)) ∧
    (∀ e : IOError, e.kind ≠ ErrorKind.wouldBlock →
      UnixListener.pollAcceptStd (PollR.ready (Except.ok v))
        (Except.error e : Except IOError (Option π)) cache
        = (PollR.ready (Except.error e), cache)) := by
  refine ⟨fun p => rfl, ?_, ?_, fun p => rfl, rfl, ?_, ?_⟩
  · intro e hk
    simp [TcpListener.pollAcceptStd, hk, clearReadReady]
  · intro e hk
    simp [TcpListener.pollAcceptStd, hk]
  · intro e hk
    simp [UnixListener.pollAcceptStd, hk, clearReadReady]
  · intro e hk
    simp [UnixListener.pollAcceptStd, hk]

/-- Witness for C1: a `WouldBlock` accept error on the TCP path and an
`Ok(None)` accept on the Unix path both clear the cache and yield
`Pending`; a refused accept is surfaced as an error. -/
theorem listener_poll_accept_spec_witness :
    TcpListener.pollAcceptStd (PollR.ready (Except.ok Ready.readable))
      (Except.error ⟨ErrorKind.wouldBlock, 0⟩ : Except IOError Nat) true
      = (PollR.pending, false) ∧
    UnixListener.pollAcceptStd (PollR.ready (Except.ok Ready.readable))
      (Except.ok (none : Option Nat)) true = (PollR.pending, false) ∧
    TcpListener.pollAcceptStd (PollR.ready (Except.ok Ready.readable))
      (Except.error ⟨ErrorKind.otherKind 2, 9⟩ : Except IOError Nat) true
      = (PollR.ready (Except.error ⟨ErrorKind.otherKind 2, 9⟩), true) :=
  ⟨(listener_poll_accept_spec Nat Ready.readable true).2.1
      ⟨ErrorKind.wouldBlock, 0⟩ rfl,
   (listener_poll_accept_spec Nat Ready.readable true).2.2.2.2.1,
   (listener_poll_accept_spec Nat Ready.readable true).2.2.1
      ⟨ErrorKind.otherKind 2, 9⟩ (by decide)⟩
